import Mathlib

/-!
Shallow embedding of the `deep_research` bot tool handlers from
`deep_research_bot.py` (repository JegernOUTT/deepresearch_bot).

The Python handlers build JSON-like dictionaries; we model those values with
the inductive `JVal`.  External collaborators (the DuckDuckGo search client,
the newspaper `Article` fetcher, the policy-document store) are modelled as
oracle functions passed in as parameters; the handlers themselves are pure
functions of those oracles and of their arguments, exactly mirroring the
source control flow.
-/

/-- JSON-like values, the shape of the dictionaries the Python handlers
build (`json.dumps` serialises these; we keep the structured value). -/
inductive JVal where
  | str (s : String)
  | num (n : Int)
  | arr (xs : List JVal)
  | obj (fields : List (String × JVal))
  | null
deriving Repr

/-- Does a JSON object carry a field with the given key?  (`False` on
non-objects.)  Mirrors `key in dict` on the dictionaries the handlers build. -/
def hasField (v : JVal) (k : String) : Bool :=
  match v with
  | .obj fs => fs.any (fun kv => kv.1 == k)
  | _ => false

/-- First-match association lookup on a JSON object's field list (Python
`dict` built by the handlers never has duplicate keys, so first match is the
dict lookup). -/
def objLookup (v : JVal) (k : String) : Option JVal :=
  match v with
  | .obj fs => (fs.find? (fun kv => kv.1 == k)).map Prod.snd
  | _ => none

/-- Python `dict` insertion: assigning key `k` replaces an existing binding
of `k` in place, otherwise appends the new binding at the end. -/
def pyInsert : List (String × JVal) → String × JVal → List (String × JVal)
  | [], kv => [kv]
  | (k', v') :: rest, (k, v) =>
      if k' = k then (k, v) :: rest else (k', v') :: pyInsert rest (k, v)

/-- Python dict-literal construction `{k1: v1, k2: v2, ...}` (also covering
`{**d}` splats): insert the pairs left to right, later duplicates override
earlier ones in place. -/
def pyDict (pairs : List (String × JVal)) : List (String × JVal) :=
  pairs.foldl pyInsert []

/-! ## Setup (persona configuration)

`setup` in the source is a string-keyed dictionary produced by
`official_setup_mixing_procedure`; the handlers only read
`setup.get("date_range", "any")` and `setup.get("research_language", "en")`.
We model just those two optional entries, with `.get`'s defaulting. -/

structure Setup where
  date_range : Option String
  research_language : Option String

/-- `setup.get("date_range", "any")` from line 268 of `deep_research_bot.py`. -/
def Setup.dateRangeD (s : Setup) : String := s.date_range.getD "any"

/-- `setup.get("research_language", "en")` from line 279. -/
def Setup.researchLanguageD (s : Setup) : String := s.research_language.getD "en"

/-! ## `web_research` handler (`toolcall_web_research`, lines 253-308) -/

/-- Arguments the model passes to `web_research` (after the host's strict
JSON-schema check): `queries`, `max_results_per_query`, `date_filter`
(nullable). -/
structure WRArgs where
  queries : List String
  max_results : Int
  date_filter : Option String

/-- Line 268: `effective_date_filter = date_filter if date_filter else
setup.get("date_range", "any")`.  Python truthiness: `None` and the empty
string both fall back to the setup default. -/
def effectiveDateFilter (date_filter : Option String) (setup : Setup) : String :=
  match date_filter with
  | none => setup.dateRangeD
  | some v => if v = "" then setup.dateRangeD else v

/-- Lines 270-276: the `timelimit` if/elif chain mapping the date filter to
the DuckDuckGo recency code (`None` when no branch matches, in particular
for `"any"`). -/
def timelimitOf (eff : String) : Option String :=
  if eff = "last_week" then some "w"
  else if eff = "last_month" then some "m"
  else if eff = "last_year" then some "y"
  else none

/-- Lines 278-281: region is `"wt-wt"` unless the configured research
language is non-empty and not `"en"`, in which case it is the language code
repeated (`"es" → "es-es"`). -/
def regionOf (setup : Setup) : String :=
  let lang := setup.researchLanguageD
  if lang ≠ "" ∧ lang ≠ "en" then lang ++ "-" ++ lang else "wt-wt"

/-- One raw result from `ddgs.text` — a dict with keys `title`, `href`,
`body` (the handler reads exactly those three with `.get(_, "")`). -/
structure DDGHit where
  title : String
  href : String
  body : String

/-- The search collaborator: `ddgs.text(query, region=…, timelimit=…,
max_results=…)` materialised through `list(…)`; it either returns the hits
or raises with a message. -/
def SearchOracle : Type :=
  String → String → Option String → Int → Except String (List DDGHit)

/-- Events observed at the search-collaborator boundary.  The source's
`for query in queries:` loop issues one synchronous `ddgs.text` call per
query; `call` records a call being issued (with the arguments passed) and
`done` the completion of that call (normal or raising). -/
inductive SEv where
  | call (q : String) (region : String) (timelimit : Option String) (max_results : Int)
  | done (q : String)
deriving DecidableEq, Repr

/-- Lines 289-303: the per-query entry — on success a dict with `query` and
`results` (each hit projected to `title`/`url`/`snippet`), on a raised
exception a dict with `query` and `error` holding the exception text. -/
def searchEntry (q : String) (r : Except String (List DDGHit)) : JVal :=
  match r with
  | .ok hits =>
      .obj [("query", .str q),
            ("results", .arr (hits.map fun h =>
              .obj [("title", .str h.title), ("url", .str h.href),
                    ("snippet", .str h.body)]))]
  | .error e => .obj [("query", .str q), ("error", .str e)]

/-- Lines 286-303: the sequential `for query in queries:` loop.  Each
iteration issues one blocking collaborator call and appends its entry before
the next iteration starts; the second component is the event trace at the
collaborator boundary. -/
def searchLoop (oracle : SearchOracle) (region : String) (tl : Option String)
    (maxr : Int) : List String → List JVal × List SEv
  | [] => ([], [])
  | q :: rest =>
      let r := oracle q region tl maxr
      let acc := searchLoop oracle region tl maxr rest
      (searchEntry q r :: acc.1, SEv.call q region tl maxr :: SEv.done q :: acc.2)

/-- Outcome of a `web_research` call: the early-return error strings of
lines 262-266 and 304-306, or the aggregated result list of line 308. -/
inductive WROutcome where
  | noQueries
  | tooManyQueries (n : Nat)
  | initFailed (e : String)
  | ok (entries : List JVal)

/-- The exact error strings the handler returns on each failure path
(`none` for the success path, which returns `json.dumps(all_results)`). -/
def webResearchError : WROutcome → Option String
  | .noQueries => some "Error: No search queries provided."
  | .tooManyQueries n =>
      some ("Error: Maximum 10 queries allowed per call. You provided "
            ++ toString n ++ ".")
  | .initFailed e => some ("Error: Failed to initialize search: " ++ e)
  | .ok _ => none

/-- `toolcall_web_research` (lines 253-308).  `init` models the
`with DDGS() as ddgs:` client construction (line 285), which the source
wraps in its own try/except.  Beyond the start-time stamp in
`research_start_times` (lines 255-256, which never influences admission or
dispatch) the handler keeps no per-session state: its behaviour is a pure
function of the oracles, the setup and the call's own arguments. -/
def webResearch (init : Except String Unit) (oracle : SearchOracle)
    (setup : Setup) (args : WRArgs) : WROutcome × List SEv :=
  if args.queries = [] then (.noQueries, [])
  else if args.queries.length > 10 then (.tooManyQueries args.queries.length, [])
  else
    let tl := timelimitOf (effectiveDateFilter args.date_filter setup)
    let region := regionOf setup
    match init with
    | .error e => (.initFailed e, [])
    | .ok _ =>
        let acc := searchLoop oracle region tl args.max_results args.queries
        (.ok acc.1, acc.2)

/-- A whole session's worth of `web_research` calls, run in sequence.  The
only cross-call state the source keeps is the `research_start_times`
timestamp dict, which never affects validation, admission or dispatch, so
successive calls are independent. -/
def runSearchSession (init : Except String Unit) (oracle : SearchOracle)
    (setup : Setup) (calls : List WRArgs) : List (WROutcome × List SEv) :=
  calls.map (webResearch init oracle setup)

/-- Number of collaborator calls issued during one `web_research` call. -/
def dispatchCount (tr : List SEv) : Nat :=
  (tr.filter (fun ev => match ev with | .call _ _ _ _ => true | _ => false)).length

/-! ## `read_article` handler (`toolcall_read_article`, lines 310-341) -/

/-- The fields the handler reads off a parsed `newspaper.Article` after
`download()` and `parse()`: `title`, `authors`, `publish_date` (optional;
the handler stringifies it), and the extracted body `text` (a sequence of
characters, Python string slicing being character-based). -/
structure ArticleData where
  title : String
  authors : List String
  publish_date : Option String
  text : List Char

/-- The fetch/parse collaborator: `Article(url)` + `download()` + `parse()`
either yields the parsed article or raises with a message. -/
def FetchOracle : Type := String → Except String ArticleData

/-- The ellipsis marker `"..."` appended on summary truncation (line 334). -/
def ellipsis : List Char := ['.', '.', '.']

/-- Line 333: `"text": article.text[:8000]` — the first 8000 characters of
the extracted body. -/
def textList (body : List Char) : List Char := body.take 8000

/-- Line 334: `"summary": article.text[:800] + "..." if len(article.text) >
800 else article.text`. -/
def summaryList (body : List Char) : List Char :=
  if body.length > 800 then body.take 800 ++ ellipsis else body

/-- Lines 323-339: the per-URL entry — on success the result dict of lines
328-335, on a raised exception the dict `{"url": url, "error": str(e)}` of
line 339. -/
def articleEntry (url : String) (r : Except String ArticleData) : JVal :=
  match r with
  | .ok a =>
      .obj [("url", .str url),
            ("title", .str a.title),
            ("authors", .arr (a.authors.map JVal.str)),
            ("publish_date", match a.publish_date with
                             | some d => .str d
                             | none => .null),
            ("text", .str (String.mk (textList a.text))),
            ("summary", .str (String.mk (summaryList a.text)))]
  | .error e => .obj [("url", .str url), ("error", .str e)]

/-- Lines 322-339: the sequential `for url in urls:` loop; one blocking
fetch per URL, entry appended before the next fetch starts.  The second
component records the URLs fetched, in the order the fetches were issued. -/
def fetchLoop (oracle : FetchOracle) : List String → List JVal × List String
  | [] => ([], [])
  | url :: rest =>
      let r := oracle url
      let acc := fetchLoop oracle rest
      (articleEntry url r :: acc.1, url :: acc.2)

/-- Outcome of a `read_article` call: the early-return error strings of
lines 315-319, or the aggregated result list of line 341. -/
inductive RAOutcome where
  | noURLs
  | tooManyURLs (n : Nat)
  | ok (entries : List JVal)

/-- The exact error strings of the `read_article` failure paths. -/
def readArticleError : RAOutcome → Option String
  | .noURLs => some "Error: No URLs provided."
  | .tooManyURLs n =>
      some ("Error: Maximum 15 URLs allowed per call. You provided "
            ++ toString n ++ ".")
  | .ok _ => none

/-- `toolcall_read_article` (lines 310-341): validate, then fetch each URL
in turn with per-URL failure isolation. -/
def readArticle (oracle : FetchOracle) (urls : List String) :
    RAOutcome × List String :=
  if urls = [] then (.noURLs, [])
  else if urls.length > 15 then (.tooManyURLs urls.length, [])
  else
    let acc := fetchLoop oracle urls
    (.ok acc.1, acc.2)

/-! ## `create_research_report` handler (`toolcall_create_research_report`,
lines 343-362)

The handler receives `model_produced_args["report"]` as a JSON object (the
host's strict schema has already shaped it); we model it as the object's
field list.  It performs no validation of its own: it wraps the report,
stamps metadata, and unconditionally persists via
`pdoc_integration.pdoc_create` (exactly one store write per call). -/

/-- Lines 350-354: the stamped `meta` block.  `created_at` is
`time.strftime("%Y-%m-%d %H:%M:%S")`, modelled by the `now` parameter;
`created_by` is the literal `"deep_research"` and `microfrontend` is
`BOT_NAME = "deep_research"`. -/
def metaObj (now : String) : JVal :=
  .obj [("created_at", .str now),
        ("created_by", .str "deep_research"),
        ("microfrontend", .str "deep_research")]

/-- Lines 348-357: `{"research_report": {"meta": {...}, **report}}` — the
inner dict literal inserts `meta` first and then splats the caller's report
fields, with Python's in-place-override semantics (`pyDict`). -/
def researchReportDoc (now : String) (report : List (String × JVal)) : JVal :=
  .obj [("research_report", .obj (pyDict (("meta", metaObj now) :: report)))]

/-- Python `str(value)` as used inside the f-string of line 362, restricted
to the value shapes the report schema admits there (strings and integers;
the strict schema makes the other cases unreachable). -/
def jshow : Option JVal → String
  | some (.str s) => s
  | some (.num n) => toString n
  | _ => ""

/-- First-match lookup in a report's field list (`report['title']` etc.; the
strict schema guarantees the key is present and unique). -/
def pyLookup (report : List (String × JVal)) (k : String) : Option JVal :=
  (report.find? (fun kv => kv.1 == k)).map Prod.snd

/-- What one `create_research_report` call does: the document handed to the
store, the path it is keyed by, how many times the store's put
(`pdoc_create`) is invoked, and the string returned to the model. -/
structure ReportCallResult where
  doc : JVal
  putPath : String
  putCalls : Nat
  message : String

/-- `toolcall_create_research_report` (lines 343-362): build the wrapped
document, call `pdoc_create(path, json.dumps(doc), fuser_id)` exactly once
— unconditionally, with no validation of citations, sources or anything
else — and return the confirmation string of line 362. -/
def createResearchReport (now path : String)
    (report : List (String × JVal)) : ReportCallResult :=
  { doc := researchReportDoc now report
    putPath := path
    putCalls := 1
    message := "📊 Research report created at: " ++ path
               ++ "\n\nTitle: " ++ jshow (pyLookup report "title")
               ++ "\nConfidence: " ++ jshow (pyLookup report "confidence_level")
               ++ "\nSources: " ++ jshow (pyLookup report "source_count")
               ++ "\nTime: ~" ++ jshow (pyLookup report "research_time_minutes")
               ++ " minutes" }

/-! Formalisation helpers for the citation-integrity claim: the source
numbers a report declares and the citation numbers its findings use.  These
express the claim's premise (a finding citing a number with no matching
source); the handler itself never computes them. -/

/-- The `number` fields of the report's `sources` array. -/
def sourceNumbers (report : List (String × JVal)) : List Int :=
  match pyLookup report "sources" with
  | some (.arr srcs) =>
      srcs.filterMap (fun s => match objLookup s "number" with
                               | some (.num n) => some n
                               | _ => none)
  | _ => []

/-- Every citation number appearing in any finding of `key_findings`. -/
def findingCitations (report : List (String × JVal)) : List Int :=
  match pyLookup report "key_findings" with
  | some (.arr fs) =>
      fs.flatMap (fun f => match objLookup f "citations" with
                           | some (.arr cs) =>
                               cs.filterMap (fun c => match c with
                                                      | .num n => some n
                                                      | _ => none)
                           | _ => [])
  | _ => []

/-- Does some finding cite a number that matches no source's `number`?
(The spec's citation-integrity invariant is violated exactly when this is
true.) -/
def hasDanglingCitation (report : List (String × JVal)) : Bool :=
  (findingCitations report).any (fun c => !((sourceNumbers report).contains c))

/-! ## Delegated-mode fetch: fan-out/join barrier

Modelled from the spec: the delegated execution strategy of `Fetch`
(spec §4.3) — spawning one independent child task per URL and suspending
the parent until every child reports a terminal result — is not implemented
in `src`: `deep_research_install.py` provisions a `researcher` sub-chat
expert and reads `deep_research_bot.TOOLS_SUBCHAT`, but `deep_research_bot.py`
defines no such attribute and its `read_article` handler is inline-only.
The join barrier below follows the spec's words: the parent registers a set
of children, each child independently reaches a terminal result (success or
failure), and a resume transition is enabled only once every child is
terminal. -/

/-- Status of one spawned child task; `succeeded` and `failed` are the two
terminal results. -/
inductive ChildStatus where
  | pending
  | succeeded
  | failed
deriving DecidableEq, Repr

/-- Has the child produced a terminal result? -/
def ChildStatus.terminal : ChildStatus → Bool
  | .pending => false
  | .succeeded => true
  | .failed => true

/-- State of one delegated `Fetch`: the statuses of the spawned children
(one per URL, by position) and whether the parent session has been resumed. -/
structure DelegState where
  children : List ChildStatus
  parentResumed : Bool
deriving DecidableEq, Repr

/-- Initial state right after fan-out: `n` children spawned, all pending,
parent suspended. -/
def delegInit (n : Nat) : DelegState :=
  { children := List.replicate n .pending, parentResumed := false }

/-- Transitions of the delegated fetch, modelled from the spec: a pending
child may reach either terminal result at any time and in any order
(`childDone`), and the host resumes the suspended parent only when every
member of the registered set is terminal (`resume`). -/
inductive DelegStep : DelegState → DelegState → Prop where
  | childDone (s : DelegState) (i : Nat) (st : ChildStatus)
      (hterm : st.terminal = true)
      (hpend : s.children.getD i .succeeded = .pending) :
      DelegStep s { children := s.children.set i st, parentResumed := s.parentResumed }
  | resume (s : DelegState)
      (hall : ∀ c ∈ s.children, c.terminal = true)
      (hsusp : s.parentResumed = false) :
      DelegStep s { children := s.children, parentResumed := true }

/-- Reachability along delegated-fetch transitions. -/
def DelegReach (s t : DelegState) : Prop := Relation.ReflTransGen DelegStep s t

/-! ## Concrete fixtures used by witnesses and counterexamples -/

/-- A search oracle that always succeeds with one fixed hit. -/
def oracleOk : SearchOracle :=
  fun _ _ _ _ => .ok [⟨"T", "http://x", "S"⟩]

/-- A search oracle failing exactly on the query `"q3"`. -/
def oracleFail3 : SearchOracle :=
  fun q _ _ _ =>
    if q = "q3" then .error "ratelimit" else .ok [⟨"T" ++ q, "http://" ++ q, "S" ++ q⟩]

/-- A setup with nothing configured (every `setup.get` takes its default). -/
def setupEmpty : Setup := { date_range := none, research_language := none }

/-- A setup whose configured default date range is `last_year`. -/
def setupLastYear : Setup := { date_range := some "last_year", research_language := none }

/-- A batch of six queries (used to exhibit the absence of any session
budget: two such batches together exceed `max_research_depth`'s default of
10, yet both dispatch in full). -/
def sixQueries : WRArgs :=
  { queries := ["q1", "q2", "q3", "q4", "q5", "q6"], max_results := 5, date_filter := none }

/-- A fetch oracle that raises `"Error 403 Forbidden"` on every URL. -/
def fetchOracle403 : FetchOracle := fun _ => .error "Error 403 Forbidden"

/-- One source entry of the fixture reports. -/
def srcObj (n : Int) : JVal :=
  .obj [("number", .num n), ("title", .str "s"), ("url", .str "u"),
        ("type", .str "article")]

/-- A schema-complete report whose single finding cites source number 4
while only sources 1..3 exist — the citation-integrity violation of the
claim. -/
def badReport : List (String × JVal) :=
  [("title", .str "T"),
   ("executive_summary", .str "E"),
   ("research_questions", .arr [.str "Q"]),
   ("key_findings", .arr [.obj [("theme", .str "t"), ("finding", .str "f"),
                                ("citations", .arr [.num 4])]]),
   ("sources", .arr [srcObj 1, srcObj 2, srcObj 3]),
   ("conclusions", .str "C"),
   ("research_date", .str "2024-01-15"),
   ("source_count", .num 3),
   ("research_time_minutes", .num 20),
   ("confidence_level", .str "high")]

/-! ## Helper lemmas -/

theorem searchLoop_fst (o : SearchOracle) (reg : String) (tl : Option String)
    (m : Int) (qs : List String) :
    (searchLoop o reg tl m qs).1 = qs.map (fun q => searchEntry q (o q reg tl m)) := by
  induction qs with
  | nil => rfl
  | cons q rest ih => simp [searchLoop, ih]

theorem searchLoop_count (o : SearchOracle) (reg : String) (tl : Option String)
    (m : Int) (qs : List String) :
    dispatchCount (searchLoop o reg tl m qs).2 = qs.length := by
  induction qs with
  | nil => rfl
  | cons q rest ih => simp [searchLoop, dispatchCount, List.filter] at ih ⊢; omega

theorem searchLoop_trace_shape (o : SearchOracle) (reg : String) (tl : Option String)
    (m : Int) (qs : List String) (ev : SEv) (hmem : ev ∈ (searchLoop o reg tl m qs).2) :
    (∃ q, ev = SEv.call q reg tl m) ∨ (∃ q, ev = SEv.done q) := by
  induction qs with
  | nil => simp [searchLoop] at hmem
  | cons q rest ih =>
      simp only [searchLoop, List.mem_cons] at hmem
      rcases hmem with h | h | h
      · exact Or.inl ⟨q, h⟩
      · exact Or.inr ⟨q, h⟩
      · exact ih h

theorem fetchLoop_fst (o : FetchOracle) (urls : List String) :
    (fetchLoop o urls).1 = urls.map (fun u => articleEntry u (o u)) := by
  induction urls with
  | nil => rfl
  | cons u rest ih => simp [fetchLoop, ih]

theorem getD_map_of_lt {α β : Type} (f : α → β) (l : List α) (i : Nat)
    (h : i < l.length) (d : β) (da : α) :
    (l.map f).getD i d = f (l.getD i da) := by
  induction l generalizing i with
  | nil => simp at h
  | cons a rest ih =>
      cases i with
      | zero => rfl
      | succ j => exact ih j (by simpa using h)

theorem pyInsert_of_notMem (acc : List (String × JVal)) (k : String) (v : JVal)
    (h : k ∉ acc.map Prod.fst) :
    pyInsert acc (k, v) = acc ++ [(k, v)] := by
  induction acc with
  | nil => rfl
  | cons p rest ih =>
      simp only [List.map_cons, List.mem_cons] at h
      push_neg at h
      simp [pyInsert, Ne.symm h.1, ih h.2]

theorem foldl_pyInsert_append (pairs acc : List (String × JVal))
    (hd : ∀ p ∈ pairs, p.1 ∉ acc.map Prod.fst)
    (hn : (pairs.map Prod.fst).Nodup) :
    pairs.foldl pyInsert acc = acc ++ pairs := by
  induction pairs generalizing acc with
  | nil => simp
  | cons p rest ih =>
      simp only [List.map_cons, List.nodup_cons] at hn
      have h1 : p.1 ∉ acc.map Prod.fst := hd p (List.mem_cons_self p rest)
      have step : pyInsert acc p = acc ++ [p] := pyInsert_of_notMem acc p.1 p.2 h1
      have hd2 : ∀ q ∈ rest, q.1 ∉ (acc ++ [p]).map Prod.fst := by
        intro q hq
        simp only [List.map_append, List.mem_append, List.map_cons, List.map_nil,
          List.mem_singleton]
        push_neg
        refine ⟨hd q (List.mem_cons_of_mem p hq), ?_⟩
        intro hqp
        exact hn.1 (hqp ▸ List.mem_map_of_mem Prod.fst hq)
      calc (p :: rest).foldl pyInsert acc = rest.foldl pyInsert (pyInsert acc p) := rfl
        _ = rest.foldl pyInsert (acc ++ [p]) := by rw [step]
        _ = (acc ++ [p]) ++ rest := ih (acc ++ [p]) hd2 hn.2
        _ = acc ++ p :: rest := by simp

theorem pyDict_eq_self (pairs : List (String × JVal))
    (hn : (pairs.map Prod.fst).Nodup) : pyDict pairs = pairs := by
  have := foldl_pyInsert_append pairs [] (by simp) hn
  simpa [pyDict] using this

theorem find_first_of_nodup (report : List (String × JVal)) (k : String) (v : JVal)
    (hmem : (k, v) ∈ report) (hn : (report.map Prod.fst).Nodup) :
    report.find? (fun kv => kv.1 == k) = some (k, v) := by
  induction report with
  | nil => simp at hmem
  | cons p rest ih =>
      simp only [List.map_cons, List.nodup_cons] at hn
      rcases List.mem_cons.mp hmem with h | h
      · subst h
        simp [List.find?]
      · have hpk : p.1 ≠ k := by
          intro he
          exact hn.1 (he ▸ (by simpa using List.mem_map_of_mem Prod.fst h))
        simp only [List.find?]
        rw [show (p.1 == k) = false by simpa using hpk]
        exact ih h hn.2

/-! ## Claim theorems -/

/-- Claim C4: the source (and its own tool descriptions, which promise
"parallel" execution) notwithstanding, a `web_research` batch is dispatched
strictly sequentially: for the two-query batch `["a", "b"]` the trace at the
collaborator boundary shows the call for `"b"` being issued only after the
call for `"a"` has completed — items do not execute concurrently. -/
theorem webResearch_sequential_dispatch :
    (webResearch (.ok ()) oracleOk setupEmpty
        { queries := ["a", "b"], max_results := 5, date_filter := none }).2
      = [SEv.call "a" "wt-wt" none 5, SEv.done "a",
         SEv.call "b" "wt-wt" none 5, SEv.done "b"] := by
  decide

/-- Claim C7: a `web_research` call with an empty query list or with more
than 10 queries, and a `read_article` call with an empty URL list or with
more than 15 URLs, each fail with the corresponding validation error and an
empty collaborator trace — no provider call is issued and no fetch is
started (and no budget state exists to be touched). -/
theorem validation_before_dispatch (init : Except String Unit)
    (oracle : SearchOracle) (setup : Setup) (args : WRArgs)
    (foracle : FetchOracle) (urls : List String) :
    (args.queries = [] → webResearch init oracle setup args = (.noQueries, [])) ∧
    (args.queries.length > 10 →
      webResearch init oracle setup args = (.tooManyQueries args.queries.length, [])) ∧
    (urls = [] → readArticle foracle urls = (.noURLs, [])) ∧
    (urls.length > 15 → readArticle foracle urls = (.tooManyURLs urls.length, [])) := by
  refine ⟨?_, ?_, ?_, ?_⟩ <;> intro h
  · simp [webResearch, h]
  · have hne : args.queries ≠ [] := by
      intro h0
      rw [h0] at h
      simp at h
    simp [webResearch, hne, h]
  · simp [readArticle, h]
  · have hne : urls ≠ [] := by
      intro h0
      rw [h0] at h
      simp at h
    simp [readArticle, hne, h]

/-- Witness for `validation_before_dispatch` at concrete inputs: an empty
query list, a batch of 11 queries, an empty URL list, and a batch of 16
URLs. -/
theorem validation_before_dispatch_witness :
    webResearch (.ok ()) oracleOk setupEmpty
        { queries := [], max_results := 5, date_filter := none } = (.noQueries, []) ∧
    webResearch (.ok ()) oracleOk setupEmpty
        { queries := List.replicate 11 "q", max_results := 5, date_filter := none }
      = (.tooManyQueries (List.replicate 11 "q").length, []) ∧
    readArticle fetchOracle403 [] = (.noURLs, []) ∧
    readArticle fetchOracle403 (List.replicate 16 "u")
      = (.tooManyURLs (List.replicate 16 "u").length, []) := by
  refine ⟨?_, ?_, ?_, ?_⟩
  · exact (validation_before_dispatch (.ok ()) oracleOk setupEmpty
      { queries := [], max_results := 5, date_filter := none } fetchOracle403 []).1 rfl
  · exact (validation_before_dispatch (.ok ()) oracleOk setupEmpty
      { queries := List.replicate 11 "q", max_results := 5, date_filter := none }
      fetchOracle403 []).2.1 (by decide)
  · exact (validation_before_dispatch (.ok ()) oracleOk setupEmpty
      { queries := [], max_results := 5, date_filter := none } fetchOracle403 []).2.2.1 rfl
  · exact (validation_before_dispatch (.ok ()) oracleOk setupEmpty
      { queries := [], max_results := 5, date_filter := none } fetchOracle403
      (List.replicate 16 "u")).2.2.2 (by decide)

/-- Claim C1, counterexample: the code keeps no session budget at all.  Two
successive six-query `web_research` calls in one session request 12 queries
in total — more than the default `max_research_depth` of 10, so under the
claim the second call would have to fail with `BudgetExceeded` and dispatch
nothing — yet both calls return results (no error) and each dispatches all
6 of its queries to the provider. -/
theorem webResearch_budget_counterexample :
    (runSearchSession (.ok ()) oracleOk setupEmpty [sixQueries, sixQueries]).map
        (fun r => (webResearchError r.1, dispatchCount r.2))
      = [(none, 6), (none, 6)] ∧ 6 + 6 > 10 := by
  exact ⟨by decide, by decide⟩

/-- Claim C1, amended: `web_research` enforces only a fixed per-call cap of
10 queries.  A call with more than 10 queries fails with a message stating
the maximum and the provided count, dispatching nothing; a non-empty call
within the cap dispatches every one of its queries, regardless of anything
dispatched by earlier calls (no budget state exists). -/
theorem webResearch_per_call_cap_only (init : Except String Unit)
    (oracle : SearchOracle) (setup : Setup) (args : WRArgs) :
    (args.queries.length > 10 →
      (webResearch init oracle setup args).2 = [] ∧
      webResearchError (webResearch init oracle setup args).1
        = some ("Error: Maximum 10 queries allowed per call. You provided "
                ++ toString args.queries.length ++ ".")) ∧
    (args.queries ≠ [] → args.queries.length ≤ 10 → init = .ok () →
      dispatchCount (webResearch init oracle setup args).2 = args.queries.length) := by
  constructor
  · intro h
    have hne : args.queries ≠ [] := by
      intro h0
      rw [h0] at h
      simp at h
    simp [webResearch, hne, h, webResearchError]
  · intro hne hle hinit
    subst hinit
    have hgt : ¬ args.queries.length > 10 := by omega
    simp [webResearch, hne, hgt, searchLoop_count]

/-- Witness for `webResearch_per_call_cap_only`: an 11-query call fails
with the cap message and an empty trace; the six-query fixture call
dispatches all 6 queries. -/
theorem webResearch_per_call_cap_only_witness :
    ((webResearch (.ok ()) oracleOk setupEmpty
        { queries := List.replicate 11 "q", max_results := 5, date_filter := none }).2 = [] ∧
     webResearchError (webResearch (.ok ()) oracleOk setupEmpty
        { queries := List.replicate 11 "q", max_results := 5, date_filter := none }).1
       = some ("Error: Maximum 10 queries allowed per call. You provided "
               ++ toString (List.replicate 11 "q").length ++ ".")) ∧
    dispatchCount (webResearch (.ok ()) oracleOk setupEmpty sixQueries).2
      = sixQueries.queries.length := by
  constructor
  · exact (webResearch_per_call_cap_only (.ok ()) oracleOk setupEmpty
      { queries := List.replicate 11 "q", max_results := 5, date_filter := none }).1
      (by decide)
  · exact (webResearch_per_call_cap_only (.ok ()) oracleOk setupEmpty sixQueries).2
      (by decide) (by decide) rfl

/-- Claim C2, counterexample: `badReport` has a finding citing source
number 4 while only sources 1..3 exist, yet `create_research_report`
performs no citation validation — the call succeeds (its message is the
success confirmation, not an error) and the document store's put is invoked
once, not zero times. -/
theorem createReport_dangling_citation_persisted :
    hasDanglingCitation badReport = true ∧
    (createResearchReport "2024-01-15 00:00:00" "/research/x" badReport).putCalls = 1 ∧
    (createResearchReport "2024-01-15 00:00:00" "/research/x" badReport).message
      = "📊 Research report created at: /research/x\n\nTitle: T\nConfidence: high\nSources: 3\nTime: ~20 minutes" := by
  refine ⟨by decide, rfl, rfl⟩

/-- Claim C2, amended: `create_research_report` performs no citation
validation at all — even for a report in which some finding cites a number
matching no source, the handler persists the wrapped document through
exactly one store put, keyed by the caller's path. -/
theorem createReport_no_validation (now path : String)
    (report : List (String × JVal)) (_h : hasDanglingCitation report = true) :
    (createResearchReport now path report).putCalls = 1 ∧
    (createResearchReport now path report).putPath = path ∧
    (createResearchReport now path report).doc = researchReportDoc now report := by
  exact ⟨rfl, rfl, rfl⟩

/-- Witness for `createReport_no_validation` at the concrete dangling-
citation report. -/
theorem createReport_no_validation_witness :
    (createResearchReport "2024-01-15 00:00:00" "/research/x" badReport).putCalls = 1 ∧
    (createResearchReport "2024-01-15 00:00:00" "/research/x" badReport).putPath
      = "/research/x" ∧
    (createResearchReport "2024-01-15 00:00:00" "/research/x" badReport).doc
      = researchReportDoc "2024-01-15 00:00:00" badReport := by
  exact createReport_no_validation "2024-01-15 00:00:00" "/research/x" badReport (by decide)

/-- Claim C10: the persisted document nests the caller's report under the
key `research_report` together with a stamped `meta` block (`created_at`
from the clock, `created_by` and `microfrontend` both `"deep_research"`);
every caller-supplied field appears in the nested object unchanged — same
key, same value — and none is dropped, renamed or overwritten (given the
schema-guaranteed facts that the report's keys are distinct and do not
include `meta`). -/
theorem report_doc_preserves_fields (now : String)
    (report : List (String × JVal))
    (hnodup : (report.map Prod.fst).Nodup)
    (hmeta : "meta" ∉ report.map Prod.fst) :
    researchReportDoc now report
      = .obj [("research_report", .obj (("meta", metaObj now) :: report))] ∧
    (∀ kv ∈ report, kv ∈ (("meta", metaObj now) :: report)) ∧
    objLookup (.obj (("meta", metaObj now) :: report)) "meta" = some (metaObj now) ∧
    (∀ k v, (k, v) ∈ report →
      objLookup (.obj (("meta", metaObj now) :: report)) k = some v) ∧
    metaObj now = .obj [("created_at", .str now), ("created_by", .str "deep_research"),
                        ("microfrontend", .str "deep_research")] := by
  have hn2 : ((("meta", metaObj now) :: report).map Prod.fst).Nodup := by
    simpa [List.nodup_cons] using And.intro hmeta hnodup
  refine ⟨?_, ?_, rfl, ?_, rfl⟩
  · unfold researchReportDoc
    rw [pyDict_eq_self _ hn2]
  · intro kv hkv
    exact List.mem_cons_of_mem _ hkv
  · intro k v hkv
    have hkm : k ≠ "meta" := by
      intro he
      exact hmeta (he ▸ (by simpa using List.mem_map_of_mem Prod.fst hkv))
    have hfind : report.find? (fun kv => kv.1 == k) = some (k, v) :=
      find_first_of_nodup report k v hkv hnodup
    simp only [objLookup, List.find?]
    rw [show (("meta" : String) == k) = false by simpa using Ne.symm hkm, hfind]
    rfl

/-- Witness for `report_doc_preserves_fields` at the concrete fixture
report (whose keys are distinct and do not include `meta`). -/
theorem report_doc_preserves_fields_witness :
    researchReportDoc "2024-01-15 00:00:00" badReport
      = .obj [("research_report",
               .obj (("meta", metaObj "2024-01-15 00:00:00") :: badReport))] ∧
    objLookup (.obj (("meta", metaObj "2024-01-15 00:00:00") :: badReport)) "title"
      = some (.str "T") := by
  have h := report_doc_preserves_fields "2024-01-15 00:00:00" badReport
    (by decide) (by decide)
  exact ⟨h.1, h.2.2.2.1 "title" (.str "T") (by simp [badReport])⟩

/-- Claim C9: for a successful inline fetch, the entry's `text` field is
the 8000-character cap of the extracted body (a size-capped starting
segment: re-appending the dropped tail recovers the body), and the
`summary` field is the 800-character truncation of that text with the
ellipsis marker appended exactly when the body exceeds 800 characters —
otherwise the summary equals the full capped text. -/
theorem fetch_text_summary_caps (url : String) (a : ArticleData) :
    textList a.text = a.text.take 8000 ∧
    textList a.text ++ a.text.drop 8000 = a.text ∧
    (a.text.length > 800 →
      summaryList a.text = (textList a.text).take 800 ++ ellipsis) ∧
    (a.text.length ≤ 800 →
      summaryList a.text = textList a.text ∧ summaryList a.text = a.text) ∧
    objLookup (articleEntry url (.ok a)) "text"
      = some (.str (String.mk (textList a.text))) ∧
    objLookup (articleEntry url (.ok a)) "summary"
      = some (.str (String.mk (summaryList a.text))) := by
  refine ⟨rfl, List.take_append_drop 8000 a.text, ?_, ?_, rfl, rfl⟩
  · intro h
    have htt : (a.text.take 8000).take 800 = a.text.take 800 := by
      rw [List.take_take]
      norm_num
    simp [summaryList, textList, h, htt]
  · intro h
    have h1 : a.text.take 8000 = a.text := List.take_of_length_le (by omega)
    have h2 : ¬ a.text.length > 800 := by omega
    simp [summaryList, textList, h1, h2]

/-- Witness for `fetch_text_summary_caps`: a body of 801 characters is
summarised as its 800-character cut plus the ellipsis, and a two-character
body is passed through unchanged. -/
theorem fetch_text_summary_caps_witness :
    summaryList (List.replicate 801 'a')
      = (textList (List.replicate 801 'a')).take 800 ++ ellipsis ∧
    summaryList ['h', 'i'] = ['h', 'i'] := by
  constructor
  · exact (fetch_text_summary_caps "u"
      { title := "t", authors := [], publish_date := none,
        text := List.replicate 801 'a' }).2.2.1
      (by rw [List.length_replicate]; norm_num)
  · exact ((fetch_text_summary_caps "u"
      { title := "t", authors := [], publish_date := none,
        text := ['h', 'i'] }).2.2.2.1 (by norm_num)).2

/-- Claim C8: the effective recency filter of a `web_research` call is the
caller's explicitly passed enum value when one was passed and otherwise the
session's configured default (`setup.get("date_range", "any")`), mapped to
the provider vocabulary by the fixed table `last_week → "w"`,
`last_month → "m"`, `last_year → "y"`, `any → ` no recency code; every
provider call the batch issues carries exactly that mapped code (and the
resolved region). -/
theorem recency_filter_resolution (df : Option String) (setup : Setup) (v : String)
    (init : Except String Unit) (oracle : SearchOracle) (args : WRArgs) :
    (df = some v →
      (v = "any" ∨ v = "last_week" ∨ v = "last_month" ∨ v = "last_year") →
      effectiveDateFilter df setup = v) ∧
    (df = none → effectiveDateFilter df setup = setup.dateRangeD) ∧
    timelimitOf "last_week" = some "w" ∧
    timelimitOf "last_month" = some "m" ∧
    timelimitOf "last_year" = some "y" ∧
    timelimitOf "any" = none ∧
    (∀ q r tl m, SEv.call q r tl m ∈ (webResearch init oracle setup args).2 →
      tl = timelimitOf (effectiveDateFilter args.date_filter setup) ∧
      r = regionOf setup) := by
  refine ⟨?_, ?_, rfl, rfl, rfl, rfl, ?_⟩
  · intro hdf hv
    subst hdf
    have hne : v ≠ "" := by
      rcases hv with h | h | h | h <;> subst h <;> decide
    simp [effectiveDateFilter, hne]
  · intro hdf
    subst hdf
    rfl
  · intro q r tl m hmem
    unfold webResearch at hmem
    by_cases h0 : args.queries = []
    · simp [h0] at hmem
    · by_cases h1 : args.queries.length > 10
      · simp [h0, h1] at hmem
      · cases hinit : init with
        | error e => simp [h0, h1, hinit] at hmem
        | ok u =>
            simp only [h0, h1, hinit, if_neg, if_false, ite_false] at hmem
            rcases searchLoop_trace_shape _ _ _ _ _ _ hmem with ⟨q2, heq⟩ | ⟨q2, heq⟩
            · injection heq with hq hr htl hm
              exact ⟨htl, hr⟩
            · simp at heq

/-- Witness for `recency_filter_resolution`: an explicitly passed
`last_week` wins over the setup default; an absent filter falls back to the
default; a one-query call with no filter and empty setup issues its
provider call with no recency code and the worldwide region. -/
theorem recency_filter_resolution_witness :
    effectiveDateFilter (some "last_week") setupLastYear = "last_week" ∧
    effectiveDateFilter none setupLastYear = setupLastYear.dateRangeD ∧
    (none : Option String) = timelimitOf (effectiveDateFilter none setupEmpty) ∧
    "wt-wt" = regionOf setupEmpty := by
  refine ⟨?_, ?_, ?_, ?_⟩
  · exact (recency_filter_resolution (some "last_week") setupLastYear "last_week"
      (.ok ()) oracleOk sixQueries).1 rfl (Or.inr (Or.inl rfl))
  · exact (recency_filter_resolution none setupLastYear "x"
      (.ok ()) oracleOk sixQueries).2.1 rfl
  · exact ((recency_filter_resolution none setupEmpty "x" (.ok ()) oracleOk
      { queries := ["q"], max_results := 5, date_filter := none }).2.2.2.2.2.2
      "q" "wt-wt" none 5 (by decide)).1
  · exact ((recency_filter_resolution none setupEmpty "x" (.ok ()) oracleOk
      { queries := ["q"], max_results := 5, date_filter := none }).2.2.2.2.2.2
      "q" "wt-wt" none 5 (by decide)).2

/-- Claim C6, counterexample: a fetch failing with raw message
`"Error 403 Forbidden"` produces the error record
`{"url": ..., "error": "Error 403 Forbidden"}` — exactly two fields, with
no `error_kind` (or any classified kind) alongside the preserved raw
message: no error classifier exists in the code. -/
theorem fetch_error_unclassified_counterexample :
    (readArticle fetchOracle403 ["http://u"]).1
      = .ok [.obj [("url", .str "http://u"),
                   ("error", .str "Error 403 Forbidden")]] ∧
    hasField (.obj [("url", .str "http://u"),
                    ("error", .str "Error 403 Forbidden")]) "error_kind" = false ∧
    objLookup (.obj [("url", .str "http://u"),
                     ("error", .str "Error 403 Forbidden")]) "error"
      = some (.str "Error 403 Forbidden") := by
  exact ⟨rfl, rfl, rfl⟩

/-- Claim C6, amended: the handler performs no error classification — for
every URL whose fetch raises, the produced record is exactly
`{"url": url, "error": raw message}`: the raw message is preserved, and no
kind field of any sort is added. -/
theorem fetch_error_record_raw_only (oracle : FetchOracle) (urls : List String)
    (url e : String) (hne : urls ≠ []) (hle : urls.length ≤ 15)
    (hmem : url ∈ urls) (herr : oracle url = .error e) :
    articleEntry url (oracle url) = .obj [("url", .str url), ("error", .str e)] ∧
    hasField (articleEntry url (oracle url)) "error_kind" = false ∧
    ∃ entries, (readArticle oracle urls).1 = .ok entries ∧
      (.obj [("url", .str url), ("error", .str e)]) ∈ entries := by
  have h1 : articleEntry url (oracle url) = .obj [("url", .str url), ("error", .str e)] := by
    rw [herr]
    rfl
  refine ⟨h1, by rw [h1]; rfl, urls.map (fun u => articleEntry u (oracle u)), ?_, ?_⟩
  · have hgt : ¬ urls.length > 15 := by omega
    simp [readArticle, hne, hgt, fetchLoop_fst]
  · rw [← h1]
    exact List.mem_map_of_mem _ hmem

/-- Witness for `fetch_error_record_raw_only` at the concrete
always-403-raising oracle and a single URL. -/
theorem fetch_error_record_raw_only_witness :
    articleEntry "http://w" (fetchOracle403 "http://w")
      = .obj [("url", .str "http://w"), ("error", .str "Error 403 Forbidden")] ∧
    hasField (articleEntry "http://w" (fetchOracle403 "http://w")) "error_kind" = false ∧
    ∃ entries, (readArticle fetchOracle403 ["http://w"]).1 = .ok entries ∧
      (.obj [("url", .str "http://w"),
             ("error", .str "Error 403 Forbidden")]) ∈ entries := by
  exact fetch_error_record_raw_only fetchOracle403 ["http://w"] "http://w"
    "Error 403 Forbidden" (by decide) (by decide) (by decide) rfl

theorem getD_mem_of_lt {α : Type} (l : List α) (i : Nat) (d : α)
    (h : i < l.length) : l.getD i d ∈ l := by
  induction l generalizing i with
  | nil => simp at h
  | cons a rest ih =>
      cases i with
      | zero => simp [List.getD]
      | succ j =>
          have := ih j (by simpa using h)
          simp only [List.getD] at this ⊢
          exact List.mem_cons_of_mem a this

theorem getD_eq_default_of_le {α : Type} (l : List α) (i : Nat) (d : α)
    (h : l.length ≤ i) : l.getD i d = d := by
  induction l generalizing i with
  | nil => simp [List.getD]
  | cons a rest ih =>
      cases i with
      | zero => simp at h
      | succ j => exact ih j (by simpa using h)

/-- Claim C5: when exactly the `i`-th query's provider call raises, a
`web_research` batch still returns one entry per query in input order: the
`i`-th entry is the error record `{"query": <that query>, "error": <raw
message>}`, every other entry is that query's untouched result entry
(carrying `results` and no `error`), and no entry in the output carries
both a `results` and an `error` field. -/
theorem search_per_item_isolation (oracle : SearchOracle) (setup : Setup)
    (args : WRArgs) (i : Nat) (e : String)
    (hne : args.queries ≠ [])
    (hle : args.queries.length ≤ 10)
    (hi : i < args.queries.length)
    (herr : oracle (args.queries.getD i "") (regionOf setup)
        (timelimitOf (effectiveDateFilter args.date_filter setup)) args.max_results
      = .error e)
    (hok : ∀ j, j < args.queries.length → j ≠ i →
      ∃ hits, oracle (args.queries.getD j "") (regionOf setup)
          (timelimitOf (effectiveDateFilter args.date_filter setup)) args.max_results
        = .ok hits) :
    ∃ entries, (webResearch (.ok ()) oracle setup args).1 = .ok entries ∧
      entries.length = args.queries.length ∧
      entries.getD i .null
        = .obj [("query", .str (args.queries.getD i "")), ("error", .str e)] ∧
      (∀ j, j < args.queries.length → j ≠ i →
        entries.getD j .null
          = searchEntry (args.queries.getD j "")
              (oracle (args.queries.getD j "") (regionOf setup)
                (timelimitOf (effectiveDateFilter args.date_filter setup))
                args.max_results) ∧
        hasField (entries.getD j .null) "results" = true ∧
        hasField (entries.getD j .null) "error" = false) ∧
      (∀ ent ∈ entries, ¬ (hasField ent "results" = true ∧ hasField ent "error" = true)) := by
  have hgt : ¬ args.queries.length > 10 := by omega
  refine ⟨args.queries.map (fun q => searchEntry q
    (oracle q (regionOf setup) (timelimitOf (effectiveDateFilter args.date_filter setup))
      args.max_results)), ?_, ?_, ?_, ?_, ?_⟩
  · simp [webResearch, hne, hgt, searchLoop_fst]
  · simp
  · rw [getD_map_of_lt (fun q => searchEntry q
      (oracle q (regionOf setup) (timelimitOf (effectiveDateFilter args.date_filter setup))
        args.max_results)) args.queries i hi JVal.null "", herr]
    rfl
  · intro j hj hji
    obtain ⟨hits, hokj⟩ := hok j hj hji
    rw [getD_map_of_lt (fun q => searchEntry q
      (oracle q (regionOf setup) (timelimitOf (effectiveDateFilter args.date_filter setup))
        args.max_results)) args.queries j hj JVal.null ""]
    refine ⟨rfl, ?_, ?_⟩
    · rw [hokj]
      rfl
    · rw [hokj]
      rfl
  · intro ent hent
    rw [List.mem_map] at hent
    obtain ⟨q, hq, rfl⟩ := hent
    cases hcase : oracle q (regionOf setup)
        (timelimitOf (effectiveDateFilter args.date_filter setup)) args.max_results with
    | ok hits =>
        rintro ⟨hres, herr2⟩
        have hf : hasField (searchEntry q (.ok hits)) "error" = false := rfl
        rw [hf] at herr2
        exact Bool.false_ne_true herr2
    | error msg =>
        rintro ⟨hres, herr2⟩
        have hf : hasField (searchEntry q (.error msg)) "results" = false := rfl
        rw [hf] at hres
        exact Bool.false_ne_true hres

/-- Witness for `search_per_item_isolation`: five queries where the oracle
raises exactly on the third (`"q3"`, index 2). -/
theorem search_per_item_isolation_witness :
    ∃ entries, (webResearch (.ok ()) oracleFail3 setupEmpty
        { queries := ["q1", "q2", "q3", "q4", "q5"], max_results := 5,
          date_filter := none }).1 = .ok entries ∧
      entries.length = (["q1", "q2", "q3", "q4", "q5"] : List String).length ∧
      entries.getD 2 .null
        = .obj [("query", .str ((["q1", "q2", "q3", "q4", "q5"] : List String).getD 2 "")),
                ("error", .str "ratelimit")] ∧
      (∀ j, j < (["q1", "q2", "q3", "q4", "q5"] : List String).length → j ≠ 2 →
        entries.getD j .null
          = searchEntry ((["q1", "q2", "q3", "q4", "q5"] : List String).getD j "")
              (oracleFail3 ((["q1", "q2", "q3", "q4", "q5"] : List String).getD j "")
                (regionOf setupEmpty)
                (timelimitOf (effectiveDateFilter none setupEmpty)) 5) ∧
        hasField (entries.getD j .null) "results" = true ∧
        hasField (entries.getD j .null) "error" = false) ∧
      (∀ ent ∈ entries, ¬ (hasField ent "results" = true ∧ hasField ent "error" = true)) := by
  refine search_per_item_isolation oracleFail3 setupEmpty
    { queries := ["q1", "q2", "q3", "q4", "q5"], max_results := 5, date_filter := none }
    2 "ratelimit" (by decide) (by decide) (by decide) rfl ?_
  intro j hj hji
  have hj5 : j < 5 := by simpa using hj
  interval_cases j
  · exact ⟨_, rfl⟩
  · exact ⟨_, rfl⟩
  · exact absurd rfl hji
  · exact ⟨_, rfl⟩
  · exact ⟨_, rfl⟩

theorem deleg_resumed_all_terminal (n : Nat) (s : DelegState)
    (h : DelegReach (delegInit n) s) :
    s.parentResumed = true → ∀ c ∈ s.children, c.terminal = true := by
  induction h with
  | refl =>
      intro hres
      exact absurd hres (by simp [delegInit])
  | tail hab hbc ih =>
      rename_i b c
      intro hres
      cases hbc with
      | childDone i st hterm hpend =>
          have hall := ih hres
          exfalso
          by_cases hilt : i < b.children.length
          · have hmem := getD_mem_of_lt b.children i ChildStatus.succeeded hilt
            have hterm2 := hall _ hmem
            rw [hpend] at hterm2
            exact Bool.false_ne_true hterm2
          · rw [getD_eq_default_of_le b.children i ChildStatus.succeeded (by omega)] at hpend
            exact ChildStatus.noConfusion hpend
      | resume hall hsusp =>
          exact hall

/-- Claim C3.  Modelled from the spec: the delegated execution strategy of
`Fetch` (spec section 4.3) is absent from `src` — `deep_research_install.py`
provisions the `researcher` sub-chat expert and reads
`deep_research_bot.TOOLS_SUBCHAT`, which `deep_research_bot.py` never
defines — so the fan-out/join barrier is modelled from the spec's words in
`DelegStep`.  In that model, in every state reachable from the fan-out of
`n` children, if any child has not yet produced a terminal result then the
parent has not been resumed: partial completion (for example 1 or 2 of 3
children done) never resumes the parent. -/
theorem deleg_no_partial_resume (n : Nat) (s : DelegState)
    (hreach : DelegReach (delegInit n) s)
    (c : ChildStatus) (hc : c ∈ s.children) (hcp : c.terminal = false) :
    s.parentResumed = false := by
  cases hsb : s.parentResumed with
  | false => rfl
  | true =>
      have := deleg_resumed_all_terminal n s hreach hsb c hc
      rw [hcp] at this
      exact absurd this (by simp)

/-- Witness for `deleg_no_partial_resume`: with 3 spawned children, after
child 1 succeeds and child 2 fails while child 3 is still pending — a
reachable state — the parent is not resumed. -/
theorem deleg_no_partial_resume_witness :
    (DelegState.mk [ChildStatus.succeeded, ChildStatus.failed, ChildStatus.pending]
      false).parentResumed = false := by
  refine deleg_no_partial_resume 3
    (DelegState.mk [ChildStatus.succeeded, ChildStatus.failed, ChildStatus.pending] false)
    ?_ ChildStatus.pending (by simp) rfl
  refine Relation.ReflTransGen.tail (Relation.ReflTransGen.tail Relation.ReflTransGen.refl
    (DelegStep.childDone (delegInit 3) 0 ChildStatus.succeeded rfl rfl)) ?_
  exact DelegStep.childDone
    (DelegState.mk [ChildStatus.succeeded, ChildStatus.pending, ChildStatus.pending] false)
    1 ChildStatus.failed rfl rfl
